import Mathlib

/-!
Verification of the dtype utility module
(`tensorflow_probability/python/internal/dtype_util.py`).

The module inspects and reconciles numeric type descriptors ("dtypes").
We shallowly embed its data model and operations:

* a `DTypeBase` enumerates the concrete numpy-level descriptors that
  occur in the claims (booleans, signed integers, floats, complex, and
  the quantized `qint8` as a representative exotic type);
* a TensorFlow-level descriptor `DType` pairs a base with a reference
  ("ref") qualifier, which `base_dtype` strips;
* fallible operations return `Except DtypeError _`, with structured
  error payloads standing for the formatted exception messages of the
  Python code (an error constructor carries exactly the data the format
  string interpolates).

Every definition is translated from the source; the single external
call modelled from the spec is noted at its definition.
-/

namespace dtype_util

/-- The numpy-level concrete descriptors used by the module.
`qint8` stands for the quantized/exotic family: all four category
predicates are false for it and numpy arithmetic promotion is
undefined on it. -/
inductive DTypeBase where
  | bool
  | int8
  | int32
  | int64
  | float16
  | float32
  | float64
  | complex64
  | complex128
  | qint8
deriving DecidableEq, Repr

/-- A TensorFlow-level type descriptor: a base descriptor possibly
carrying the reference ("ref") mutability qualifier that
`DType.base_dtype` strips. -/
structure DType where
  base : DTypeBase
  isRef : Bool
deriving DecidableEq, Repr

/-- Models `tf.as_dtype` applied to a numpy dtype: the non-ref TF descriptor. -/
def toTf (b : DTypeBase) : DType := ⟨b, false⟩

/-- Function `as_numpy_dtype`: maps a descriptor to its numpy representation
(`tf.as_dtype(dtype).as_numpy_dtype`), which has no ref qualifier. -/
def as_numpy_dtype (d : DType) : DTypeBase := d.base

/-- Function `base_dtype`: strips the reference qualifier
(`tf.as_dtype(dtype).base_dtype`). -/
def base_dtype (d : DType) : DType := ⟨d.base, false⟩

/-- Function `base_equal(a, b)`: `base_dtype(a) == base_dtype(b)`. -/
def base_equal (a b : DType) : Bool := base_dtype a = base_dtype b

/-- The numpy arithmetic promotion for two length-2 arrays,
`(np.ones([2], a) + np.ones([2], b)).dtype`.  Both arrays are
non-scalar, so this is the pure numpy type-promotion table
(`np.promote_types`) restricted to the descriptors of `DTypeBase`.
`none` models the numpy `TypeError` raised when no common type exists
(the quantized `qint8` has no promotion rule). -/
def np_promote (a b : DTypeBase) : Option DTypeBase :=
  match a, b with
  | .qint8, _ | _, .qint8 => none
  | .bool, x => some x
  | x, .bool => some x
  | .complex128, _ | _, .complex128 => some .complex128
  | .complex64, .int32 | .int32, .complex64 => some .complex128
  | .complex64, .int64 | .int64, .complex64 => some .complex128
  | .complex64, .float64 | .float64, .complex64 => some .complex128
  | .complex64, _ | _, .complex64 => some .complex64
  | .float64, _ | _, .float64 => some .float64
  | .float32, .int32 | .int32, .float32 => some .float64
  | .float32, .int64 | .int64, .float32 => some .float64
  | .float32, _ | _, .float32 => some .float32
  | .float16, .int32 | .int32, .float16 => some .float64
  | .float16, .int64 | .int64, .float16 => some .float64
  | .float16, _ | _, .float16 => some .float16
  | .int64, _ | _, .int64 => some .int64
  | .int32, _ | _, .int32 => some .int32
  | .int8, .int8 => some .int8

/-- Structured stand-ins for the exceptions the module raises; each
constructor carries exactly the data interpolated into the Python
format string of the corresponding `raise`. -/
inductive DtypeError where
  /-- Models the `TypeError` of `common_dtype` (message: found
  incompatible dtypes, seen so far): the two conflicting numpy descriptors and the
  `seen` list accumulated so far (a `none` entry records a value that
  carried no descriptor). -/
  | incompatibleTypes (d1 d2 : DTypeBase) (seen : List (Option DTypeBase))
  /-- Models the `TypeError` of `convert_to_dtype` (message: found
  incompatible dtypes). -/
  | incompatiblePair (d1 d2 : DType)
  /-- Models the `ValueError` of `_assert_same_base_type` (message: item,
  type, must be of the same type as): display name of the offending item, its type, the
  expected type, and the name of the item the expected type came from
  (if any). -/
  | mismatch (itemName : String) (itemType expected : DType)
      (originalItem : Option String)
  /-- Models the `ValueError` of `assert_same_float_dtype` (message:
  expected floating point type). -/
  | notFloatingPoint (d : DType)
  /-- Models the `TypeError` of `tf.DType.max` and `tf.DType.min`
  (message: cannot find bound value) for categories without bounds. -/
  | unsupportedType (d : DType)
  /-- Models the numpy `TypeError` raised when the promotion in the
  skip-checks branch of `common_dtype` is undefined for the two descriptors. -/
  | numpyPromotionFailed (d1 d2 : DTypeBase)
deriving DecidableEq, Repr

/-- The loop of `common_dtype`: iterates over the flattened `args_list`
(an element is `none` when the value has no truthy `dtype` attribute),
threading the running numpy descriptor `dtype` and the `seen` list. -/
def commonDtypeLoop (skip : Bool) :
    List (Option DType) → Option DTypeBase → List (Option DTypeBase) →
    Except DtypeError (Option DTypeBase)
  | [], dtype, _ => .ok dtype
  | none :: rest, dtype, seen => commonDtypeLoop skip rest dtype (seen ++ [none])
  | some a :: rest, dtype, seen =>
    let dt := as_numpy_dtype a
    let seen' := seen ++ [some dt]
    match dtype with
    | none => commonDtypeLoop skip rest (some dt) seen'
    | some d0 =>
      if d0 = dt then commonDtypeLoop skip rest (some d0) seen'
      else if skip then
        match np_promote d0 dt with
        | some p => commonDtypeLoop skip rest (some p) seen'
        | none => .error (.numpyPromotionFailed d0 dt)
      else .error (.incompatibleTypes d0 dt seen')

/-- Function `common_dtype(args_list, dtype_hint)`.  Here `args_list` is the
`tf.nest.flatten`ed collection of tagged values; `skip` is the
process-wide `SKIP_DTYPE_CHECKS` flag.  Returns `dtype_hint` when no
value carried a descriptor, else `base_dtype` of the accumulated numpy
descriptor. -/
def common_dtype (args_list : List (Option DType)) (dtype_hint : Option DType)
    (skip : Bool) : Except DtypeError (Option DType) :=
  (commonDtypeLoop skip args_list none []).map fun dtype =>
    match dtype with
    | none => dtype_hint
    | some d => some (base_dtype (toTf d))

/-- The Python expression `a or b` on descriptor-or-`None` operands: a descriptor is
always truthy, `None` is falsy. -/
def pyOr (a b : Option DType) : Option DType :=
  match a with
  | some x => some x
  | none => b

/-- The possible non-`None` inputs of `convert_to_dtype`, one
constructor per branch of its `isinstance` dispatch. -/
inductive TensorOrDType where
  /-- a TensorFlow tensor (`tf.is_tensor`), carrying its dtype -/
  | tensor (dt : DType)
  /-- a `tf.DType` -/
  | tfDType (d : DType)
  /-- a numpy `np.ndarray`, carrying its own numpy dtype -/
  | ndarray (dt : DTypeBase)
  /-- a numpy scalar type (`np.issctype`) -/
  | sctype (dt : DTypeBase)
  /-- any other Python object; `natural` is the descriptor
  `tf.convert_to_tensor` infers for it when neither `dtype` nor
  `dtype_hint` is given -/
  | pyObject (natural : DType)
deriving DecidableEq, Repr

/-- Modelled from the spec: the dtype of
`tf.convert_to_tensor(value, dtype, dtype_hint)` — the implicit
conversion of the host framework, outside this module.  Per the spec,
the conversion produces the requested `dtype` when given, else the
`dtype_hint`, else the inferred descriptor of the value. -/
def convert_to_tensor_dtype (natural : DType) (dtype dtype_hint : Option DType) :
    DType :=
  match dtype with
  | some d => d
  | none =>
    match dtype_hint with
    | some h => h
    | none => natural

/-- The descriptor `dt` computed by the dispatch of `convert_to_dtype`
before the final strictness check. -/
def resolvedDt (t : TensorOrDType) (dtype dtype_hint : Option DType) : DType :=
  match t with
  | .tensor td => base_dtype td
  | .tfDType d => base_dtype d
  | .ndarray nd => base_dtype ((pyOr dtype dtype_hint).getD (toTf nd))
  | .sctype nd => base_dtype ((pyOr dtype dtype_hint).getD (toTf nd))
  | .pyObject nat => convert_to_tensor_dtype nat dtype dtype_hint

/-- Function `convert_to_dtype(tensor_or_dtype, dtype, dtype_hint)` with the
process-wide `SKIP_DTYPE_CHECKS` flag passed explicitly. -/
def convert_to_dtype (t : Option TensorOrDType) (dtype dtype_hint : Option DType)
    (skip : Bool) : Except DtypeError (Option DType) :=
  match t with
  | none => .ok (pyOr dtype dtype_hint)
  | some tod =>
    let dt := resolvedDt tod dtype dtype_hint
    match dtype with
    | some d =>
      if !skip && !(base_equal d dt) then .error (.incompatiblePair d dt)
      else .ok (some dt)
    | none => .ok (some dt)

/-- Predicate `is_bool`: `tf.DType.is_bool`, i.e. the base descriptor is the
boolean type. -/
def is_bool (d : DType) : Bool := d.base = .bool

/-- Predicate `is_complex`: `tf.DType.is_complex`. -/
def is_complex (d : DType) : Bool :=
  match d.base with
  | .complex64 | .complex128 => true
  | _ => false

/-- Predicate `is_floating`: `tf.DType.is_floating` (real, non-quantized floating
point). -/
def is_floating (d : DType) : Bool :=
  match d.base with
  | .float16 | .float32 | .float64 => true
  | _ => false

/-- Predicate `is_integer`: `tf.DType.is_integer` (non-quantized integer). -/
def is_integer (d : DType) : Bool :=
  match d.base with
  | .int8 | .int32 | .int64 => true
  | _ => false

/-- Function `size`: number of bytes of the representation
(`tf.DType.size`). -/
def size (d : DType) : Nat :=
  match d.base with
  | .bool => 1
  | .int8 => 1
  | .int32 => 4
  | .int64 => 8
  | .float16 => 2
  | .float32 => 4
  | .float64 => 8
  | .complex64 => 8
  | .complex128 => 16
  | .qint8 => 1

/-- Function `max(dtype)`: the maximum representable value.  After `tf.as_dtype`
the input is a `tf.DType`, whose `max` property raises `TypeError` for
quantized, boolean and complex descriptors and otherwise returns the
numpy bound (`np.iinfo` for integers, `np.finfo` for floats, here as
exact rationals). -/
def max (d : DType) : Except DtypeError ℚ :=
  match d.base with
  | .bool | .qint8 | .complex64 | .complex128 => .error (.unsupportedType d)
  | .int8 => .ok 127
  | .int32 => .ok (2 ^ 31 - 1)
  | .int64 => .ok (2 ^ 63 - 1)
  | .float16 => .ok 65504
  | .float32 => .ok ((2 ^ 24 - 1) * 2 ^ 104)
  | .float64 => .ok ((2 ^ 53 - 1) * 2 ^ 971)

/-- Function `min(dtype)`: the minimum representable value, same dispatch as
`max`. -/
def min (d : DType) : Except DtypeError ℚ :=
  match d.base with
  | .bool | .qint8 | .complex64 | .complex128 => .error (.unsupportedType d)
  | .int8 => .ok (-128)
  | .int32 => .ok (-(2 ^ 31))
  | .int64 => .ok (-(2 ^ 63))
  | .float16 => .ok (-65504)
  | .float32 => .ok (-((2 ^ 24 - 1) * 2 ^ 104))
  | .float64 => .ok (-((2 ^ 53 - 1) * 2 ^ 971))

/-- A graph item passed to `_assert_same_base_type`: it exposes a
`dtype` and, for the error message, a display name
(the `name` attribute when present, else the string form). -/
structure GraphItem where
  dtype : DType
  displayName : Option String
  strRepr : String
deriving DecidableEq, Repr

/-- The local `get_name` helper of the message-building pass of
`_assert_same_base_type`. -/
def getName (it : GraphItem) : String := it.displayName.getD it.strRepr

/-- The first (cheap) pass of `_assert_same_base_type`: threads the
running `expected_type` and stops at the first mismatch.  Returns the
final `expected_type` and the `mismatch` flag. -/
def scanBaseType : List (Option GraphItem) → Option DType →
    Option DType × Bool
  | [], exp => (exp, false)
  | none :: rest, exp => scanBaseType rest exp
  | some it :: rest, exp =>
    let itemType := base_dtype it.dtype
    match exp with
    | none => scanBaseType rest (some itemType)
    | some e =>
      if e = itemType then scanBaseType rest (some e)
      else (some e, true)

/-- The second (message-building) pass of `_assert_same_base_type`: runs
only after the first pass found a mismatch, re-deriving the expected
type from `original_expected_type` and recording which item it came
from; raises at the first mismatching item.  The `.ok` result models
the fall-through `return expected_type  # Should be unreachable`. -/
def buildMismatchError : List (Option GraphItem) → Option DType →
    Option String → Except DtypeError (Option DType)
  | [], exp, _ => .ok exp
  | none :: rest, exp, orig => buildMismatchError rest exp orig
  | some it :: rest, exp, orig =>
    let itemType := base_dtype it.dtype
    match exp with
    | none => buildMismatchError rest (some itemType) (some (getName it))
    | some e =>
      if e = itemType then buildMismatchError rest (some e) orig
      else .error (.mismatch (getName it) itemType e orig)

/-- Function `_assert_same_base_type(items, expected_type)`. -/
def assertSameBaseType (items : List (Option GraphItem))
    (expected_type : Option DType) : Except DtypeError (Option DType) :=
  let scanned := scanBaseType items expected_type
  if scanned.2 then buildMismatchError items expected_type none
  else .ok scanned.1

/-- The dtype `assert_same_float_dtype` holds after the optional
`_assert_same_base_type` stage (`if tensors:` is Python truthiness of
the list). -/
def floatDtypeStage1 (tensors : List (Option GraphItem))
    (dtype : Option DType) : Except DtypeError (Option DType) :=
  if tensors.isEmpty then .ok dtype
  else assertSameBaseType tensors dtype

/-- Function `assert_same_float_dtype(tensors, dtype)`: validates the common
base type, defaults to `tf.float32`, and requires a floating-point
result. -/
def assert_same_float_dtype (tensors : List (Option GraphItem))
    (dtype : Option DType) : Except DtypeError DType := do
  let resolved ← floatDtypeStage1 tensors dtype
  match resolved with
  | none => pure (toTf .float32)
  | some d =>
    if is_floating d then pure d
    else .error (.notFloatingPoint d)


/-! ## Helper lemmas -/

/-- When no element of the list carries a descriptor, the
`common_dtype` loop finishes with the running descriptor still unset. -/
lemma commonDtypeLoop_all_none (skip : Bool) :
    ∀ (args : List (Option DType)) (seen : List (Option DTypeBase)),
      (∀ a ∈ args, a = none) →
      commonDtypeLoop skip args none seen = .ok none := by
  intro args
  induction args with
  | nil => intro seen _; rfl
  | cons a rest ih =>
    intro seen h
    have ha : a = none := h a (List.mem_cons_self a rest)
    subst ha
    exact ih (seen ++ [none]) fun x hx => h x (List.mem_cons_of_mem none hx)

/-- Descriptors that are not base-equal have different numpy forms. -/
lemma asNumpy_ne_of_not_base_equal {a b : DType} (h : base_equal a b = false) :
    as_numpy_dtype a ≠ as_numpy_dtype b := by
  intro hc
  simp only [base_equal] at h
  have hne := of_decide_eq_false h
  apply hne
  simp only [as_numpy_dtype] at hc
  simp only [base_dtype]
  rw [hc]

/-! ## Claims -/

/-- C7: for every supported descriptor `d`, `base_dtype` is idempotent:
`base_dtype (base_dtype d) = base_dtype d`. -/
theorem base_dtype_idempotent (d : DType) :
    base_dtype (base_dtype d) = base_dtype d := rfl

/-- C8: for every supported concrete descriptor, the four category
predicates `is_bool`, `is_integer`, `is_floating`, `is_complex` are
pairwise mutually exclusive — at most one of them is true — and all
four are false for the exotic/quantized `qint8` descriptor. -/
theorem category_predicates_mutually_exclusive :
    (∀ d : DType,
      [is_bool d, is_integer d, is_floating d, is_complex d].count true ≤ 1) ∧
    is_bool (toTf .qint8) = false ∧ is_integer (toTf .qint8) = false ∧
    is_floating (toTf .qint8) = false ∧ is_complex (toTf .qint8) = false := by
  refine ⟨?_, rfl, rfl, rfl, rfl⟩
  rintro ⟨b, r⟩
  cases b <;> cases r <;> decide

/-- C10: when `convert_to_dtype` is given a numpy `ndarray` together
with an explicit `dtype`, the dtype of the array itself is never
consulted: the result is the base form of the explicit dtype, with no
error, for every skip-flag setting and every array dtype. -/
theorem convert_to_dtype_ndarray_ignores_array_dtype
    (arrDt : DTypeBase) (d : DType) (hint : Option DType) (skip : Bool) :
    convert_to_dtype (some (.ndarray arrDt)) (some d) hint skip
      = .ok (some (base_dtype d)) := by
  simp [convert_to_dtype, resolvedDt, pyOr, base_equal, base_dtype]

/-- C9: for every integer descriptor, `max` and `min` return the exact
representable integer bounds determined by the storage width; in
particular `max int8 = 127` and `min int8 = -128`; and both fail with
the unsupported-type error on the boolean descriptor, whose category
has no defined bounds. -/
theorem max_min_integer_bounds :
    (∀ d : DType, is_integer d = true →
      max d = .ok ((2 : ℚ) ^ (8 * size d - 1) - 1) ∧
      min d = .ok (-((2 : ℚ) ^ (8 * size d - 1)))) ∧
    max (toTf .int8) = .ok 127 ∧ min (toTf .int8) = .ok (-128) ∧
    max (toTf .bool) = .error (.unsupportedType (toTf .bool)) ∧
    min (toTf .bool) = .error (.unsupportedType (toTf .bool)) := by
  refine ⟨?_, rfl, rfl, rfl, rfl⟩
  rintro ⟨b, r⟩
  cases b <;> (simp only [is_integer, max, min, size]; norm_num)

/-- Witness for C9 at the 32-bit integer descriptor. -/
theorem max_min_integer_bounds_witness :
    max (toTf .int32) = .ok ((2 : ℚ) ^ (8 * size (toTf .int32) - 1) - 1) ∧
    min (toTf .int32) = .ok (-((2 : ℚ) ^ (8 * size (toTf .int32) - 1))) :=
  max_min_integer_bounds.1 (toTf .int32) rfl

/-- C6: for every hint (including none) and every skip-flag setting,
`common_dtype` applied to a collection in which no value carries a
descriptor — in particular the empty collection — returns the hint
unchanged. -/
theorem common_dtype_no_descriptor_returns_hint
    (args : List (Option DType)) (hint : Option DType) (skip : Bool)
    (h : ∀ a ∈ args, a = none) :
    common_dtype args hint skip = .ok hint := by
  unfold common_dtype
  rw [commonDtypeLoop_all_none skip args [] h]
  rfl

/-- Witness for C6: the empty collection and a two-element collection
of descriptor-less values, with a float32 hint. -/
theorem common_dtype_no_descriptor_returns_hint_witness :
    common_dtype [] (some (toTf .float32)) false = .ok (some (toTf .float32)) ∧
    common_dtype [none, none] none true = .ok none :=
  ⟨common_dtype_no_descriptor_returns_hint [] (some (toTf .float32)) false
      (by decide),
   common_dtype_no_descriptor_returns_hint [none, none] none true (by decide)⟩

/-- C3: with strict checking, an explicit dtype that is not base-equal
to the resolved descriptor makes `convert_to_dtype` fail with the
incompatible-types error; and a `None` input returns the explicit
dtype, or the hint when no explicit dtype is given. -/
theorem convert_to_dtype_strict_check :
    (∀ (t : TensorOrDType) (d : DType) (hint : Option DType),
      base_equal d (resolvedDt t (some d) hint) = false →
      convert_to_dtype (some t) (some d) hint false
        = .error (.incompatiblePair d (resolvedDt t (some d) hint))) ∧
    (∀ d hint : Option DType,
      convert_to_dtype none d hint false = .ok (pyOr d hint)) := by
  refine ⟨?_, fun d hint => rfl⟩
  intro t d hint h
  simp [convert_to_dtype, h]

/-- Witness for C3: a float64 tensor against an explicit float32 dtype
fails; a `None` input with only a hint returns the hint. -/
theorem convert_to_dtype_strict_check_witness :
    convert_to_dtype (some (.tensor (toTf .float64))) (some (toTf .float32))
        none false
      = .error (.incompatiblePair (toTf .float32)
          (resolvedDt (.tensor (toTf .float64)) (some (toTf .float32)) none)) ∧
    convert_to_dtype none none (some (toTf .float16)) false
      = .ok (pyOr none (some (toTf .float16))) :=
  ⟨convert_to_dtype_strict_check.1 (.tensor (toTf .float64)) (toTf .float32)
      none rfl,
   convert_to_dtype_strict_check.2 none (some (toTf .float16))⟩

/-- Unfolding of the monadic definition of `assert_same_float_dtype`
into an explicit case split on the first stage. -/
lemma assert_same_float_dtype_eq (tensors : List (Option GraphItem))
    (dtype : Option DType) :
    assert_same_float_dtype tensors dtype =
      match floatDtypeStage1 tensors dtype with
      | .error e => .error e
      | .ok none => .ok (toTf .float32)
      | .ok (some d) =>
        if is_floating d then .ok d else .error (.notFloatingPoint d) := by
  unfold assert_same_float_dtype
  cases floatDtypeStage1 tensors dtype with
  | error e => rfl
  | ok v => cases v <;> rfl

/-- C4: `assert_same_float_dtype` returns the standard 32-bit float
when given no tensors and no dtype, and raises the not-floating-point
error whenever the resolved type is not floating — in particular for an
empty tensor list with an explicit int32 dtype. -/
theorem assert_same_float_dtype_default_and_not_floating :
    assert_same_float_dtype [] none = .ok (toTf .float32) ∧
    assert_same_float_dtype [] (some (toTf .int32))
      = .error (.notFloatingPoint (toTf .int32)) ∧
    (∀ (tensors : List (Option GraphItem)) (dtype : Option DType) (d : DType),
      floatDtypeStage1 tensors dtype = .ok (some d) → is_floating d = false →
      assert_same_float_dtype tensors dtype = .error (.notFloatingPoint d)) := by
  refine ⟨rfl, rfl, ?_⟩
  intro tensors dtype d h1 h2
  rw [assert_same_float_dtype_eq, h1]
  simp [h2]

/-- Witness for C4 at the empty tensor list with an explicit int32. -/
theorem assert_same_float_dtype_default_and_not_floating_witness :
    assert_same_float_dtype [] (some (toTf .int32))
      = .error (.notFloatingPoint (toTf .int32)) :=
  assert_same_float_dtype_default_and_not_floating.2.2 [] (some (toTf .int32))
    (toTf .int32) rfl rfl

/-- With the skip flag set, the `common_dtype` loop can never produce
the incompatible-types error. -/
lemma commonDtypeLoop_skip_no_incompat :
    ∀ (args : List (Option DType)) (dtype : Option DTypeBase)
      (seen : List (Option DTypeBase)) (e1 e2 : DTypeBase)
      (s : List (Option DTypeBase)),
      commonDtypeLoop true args dtype seen ≠ .error (.incompatibleTypes e1 e2 s) := by
  intro args
  induction args with
  | nil => intro dtype seen e1 e2 s; simp [commonDtypeLoop]
  | cons a rest ih =>
    intro dtype seen e1 e2 s
    cases a with
    | none => simpa [commonDtypeLoop] using ih dtype (seen ++ [none]) e1 e2 s
    | some av =>
      cases dtype with
      | none =>
        simpa [commonDtypeLoop] using
          ih (some (as_numpy_dtype av)) (seen ++ [some (as_numpy_dtype av)])
            e1 e2 s
      | some d0 =>
        by_cases hd : d0 = as_numpy_dtype av
        · simpa [commonDtypeLoop, hd] using
            ih (some (as_numpy_dtype av)) (seen ++ [some (as_numpy_dtype av)])
              e1 e2 s
        · cases hp : np_promote d0 (as_numpy_dtype av) with
          | some p =>
            simpa [commonDtypeLoop, hd, hp] using
              ih (some p) (seen ++ [some (as_numpy_dtype av)]) e1 e2 s
          | none => simp [commonDtypeLoop, hd, hp]

/-- C2: with skip_dtype_checks enabled, `common_dtype` never raises the
incompatible-types error; on a conflict it continues with the numpy
promotion of the two types (the dtype of adding two length-2 arrays of
those types), and in particular float32 together with float64 yields
float64 with no error. -/
theorem common_dtype_skip_promotes :
    (∀ (args : List (Option DType)) (hint : Option DType)
        (e1 e2 : DTypeBase) (s : List (Option DTypeBase)),
      common_dtype args hint true ≠ .error (.incompatibleTypes e1 e2 s)) ∧
    (∀ (a b : DType) (hint : Option DType) (p : DTypeBase),
      as_numpy_dtype a ≠ as_numpy_dtype b →
      np_promote (as_numpy_dtype a) (as_numpy_dtype b) = some p →
      common_dtype [some a, some b] hint true = .ok (some (toTf p))) ∧
    (∀ hint : Option DType,
      common_dtype [some (toTf .float32), some (toTf .float64)] hint true
        = .ok (some (toTf .float64))) := by
  refine ⟨?_, ?_, fun hint => rfl⟩
  · intro args hint e1 e2 s h
    unfold common_dtype at h
    cases hl : commonDtypeLoop true args none [] with
    | ok v => rw [hl] at h; simp [Except.map] at h
    | error e =>
      rw [hl] at h
      simp [Except.map] at h
      exact commonDtypeLoop_skip_no_incompat args none [] e1 e2 s
        (by rw [hl, h])
  · intro a b hint p hne hp
    simp [common_dtype, commonDtypeLoop, hne, hp, toTf, base_dtype, Except.map]

/-- Witness for C2 at the float32/float64 pair. -/
theorem common_dtype_skip_promotes_witness :
    common_dtype [some (toTf .float32), some (toTf .float64)] none true
      = .ok (some (toTf .float64)) :=
  common_dtype_skip_promotes.2.1 (toTf .float32) (toTf .float64) none .float64
    (by decide) rfl

/-- Whenever the cheap first pass of `_assert_same_base_type` reports a
mismatch, the message-building pass (run with any original-item
string) finds a mismatching item and produces an error. -/
lemma buildMismatch_of_scan :
    ∀ (items : List (Option GraphItem)) (exp : Option DType)
      (orig : Option String),
      (scanBaseType items exp).2 = true →
      ∃ nm t e o, buildMismatchError items exp orig
          = .error (.mismatch nm t e o) ∧ t ≠ e := by
  intro items
  induction items with
  | nil => intro exp orig h; simp [scanBaseType] at h
  | cons a rest ih =>
    intro exp orig h
    cases a with
    | none =>
      simp only [scanBaseType] at h
      simpa [buildMismatchError] using ih exp orig h
    | some it =>
      cases exp with
      | none =>
        simp only [scanBaseType] at h
        simpa [buildMismatchError] using
          ih (some (base_dtype it.dtype)) (some (getName it)) h
      | some e =>
        by_cases he : e = base_dtype it.dtype
        · subst he
          simp only [scanBaseType, if_pos] at h
          simpa [buildMismatchError] using ih (some (base_dtype it.dtype)) orig h
        · refine ⟨getName it, base_dtype it.dtype, e, orig, ?_, fun hc => he hc.symm⟩
          simp [buildMismatchError, he]

/-- C5: in `_assert_same_base_type`, the expensive message-building
pass runs only once the cheap first pass has detected a mismatch (with
no mismatch the result is the first-pass type and no message is
built), and whenever the first pass detects a mismatch the second pass
raises an error naming the offending item and the expected type — its
fall-through return is unreachable. -/
theorem assert_same_base_type_second_pass_raises :
    (∀ (items : List (Option GraphItem)) (expected : Option DType),
      (scanBaseType items expected).2 = true →
      ∃ nm t e o,
        buildMismatchError items expected none = .error (.mismatch nm t e o) ∧
        t ≠ e ∧
        assertSameBaseType items expected = .error (.mismatch nm t e o)) ∧
    (∀ (items : List (Option GraphItem)) (expected : Option DType),
      (scanBaseType items expected).2 = false →
      assertSameBaseType items expected
        = .ok (scanBaseType items expected).1) := by
  constructor
  · intro items expected h
    obtain ⟨nm, t, e, o, hb, hne⟩ := buildMismatch_of_scan items expected none h
    exact ⟨nm, t, e, o, hb, hne, by simp [assertSameBaseType, h, hb]⟩
  · intro items expected h
    simp [assertSameBaseType, h]

/-- Witness for C5 at a float32 item followed by a float64 item. -/
theorem assert_same_base_type_second_pass_raises_witness :
    ∃ nm t e o,
      buildMismatchError
          [some ⟨toTf .float32, some "w", "w"⟩,
           some ⟨toTf .float64, some "x", "x"⟩] none none
        = .error (.mismatch nm t e o) ∧
      t ≠ e ∧
      assertSameBaseType
          [some ⟨toTf .float32, some "w", "w"⟩,
           some ⟨toTf .float64, some "x", "x"⟩] none
        = .error (.mismatch nm t e o) :=
  assert_same_base_type_second_pass_raises.1
    [some ⟨toTf .float32, some "w", "w"⟩, some ⟨toTf .float64, some "x", "x"⟩]
    none rfl

/-- Once the running descriptor of the strict `common_dtype` loop is
set to `d0`, any later value whose numpy descriptor differs makes the
loop fail with the incompatible-types error: the payload names `d0` and
the first differing descriptor, and extends the seen list in encounter
order. -/
lemma commonDtypeLoop_strict_conflict (d0 : DTypeBase) :
    ∀ (rest : List (Option DType)) (seen : List (Option DTypeBase)),
      some d0 ∈ seen →
      (∃ d : DType, some d ∈ rest ∧ as_numpy_dtype d ≠ d0) →
      ∃ d2 ext,
        commonDtypeLoop false rest (some d0) seen
          = .error (.incompatibleTypes d0 d2 (seen ++ ext)) ∧
        d0 ≠ d2 ∧ some d2 ∈ ext ∧
        ext <+: rest.map (Option.map as_numpy_dtype) := by
  intro rest
  induction rest with
  | nil =>
    rintro seen _ ⟨d, hd, _⟩
    exact absurd hd (List.not_mem_nil _)
  | cons a rest ih =>
    rintro seen hs ⟨d, hd, hne⟩
    cases a with
    | none =>
      have hd' : some d ∈ rest := by
        rcases List.mem_cons.mp hd with h1 | h1
        · exact absurd h1 (by simp)
        · exact h1
      obtain ⟨d2, ext, heq, hne2, hmem, hpre⟩ :=
        ih (seen ++ [none]) (by simp [hs]) ⟨d, hd', hne⟩
      refine ⟨d2, none :: ext, ?_, hne2, by simp [hmem], ?_⟩
      · simpa [commonDtypeLoop, List.append_assoc] using heq
      · obtain ⟨tl, htl⟩ := hpre
        exact ⟨tl, by simp [htl]⟩
    | some av =>
      by_cases hdt : d0 = as_numpy_dtype av
      · have hd' : some d ∈ rest := by
          rcases List.mem_cons.mp hd with h1 | h1
          · obtain rfl : d = av := Option.some.inj h1
            exact absurd hdt.symm hne
          · exact h1
        obtain ⟨d2, ext, heq, hne2, hmem, hpre⟩ :=
          ih (seen ++ [some (as_numpy_dtype av)]) (by simp [hs]) ⟨d, hd', hne⟩
        refine ⟨d2, some (as_numpy_dtype av) :: ext, ?_, hne2,
          by simp [hmem], ?_⟩
        · simp only [commonDtypeLoop]
          rw [if_pos hdt, heq]
          simp [List.append_assoc]
        · obtain ⟨tl, htl⟩ := hpre
          exact ⟨tl, by simp [htl]⟩
      · refine ⟨as_numpy_dtype av, [some (as_numpy_dtype av)], ?_, hdt,
          by simp, ?_⟩
        · simp [commonDtypeLoop, hdt]
        · exact ⟨rest.map (Option.map as_numpy_dtype), by simp⟩

/-- With strict checking, a collection holding two values of differing
numpy descriptors drives the `common_dtype` loop (started with no
running descriptor) into the incompatible-types error, with a
conflicting pair that is recorded in the appended part of the seen
list, which itself follows encounter order. -/
lemma commonDtypeLoop_strict_two :
    ∀ (args : List (Option DType)) (seen : List (Option DTypeBase)),
      (∃ d1 d2 : DType, some d1 ∈ args ∧ some d2 ∈ args ∧
        as_numpy_dtype d1 ≠ as_numpy_dtype d2) →
      ∃ e1 e2 ext,
        commonDtypeLoop false args none seen
          = .error (.incompatibleTypes e1 e2 (seen ++ ext)) ∧
        e1 ≠ e2 ∧ some e1 ∈ ext ∧ some e2 ∈ ext ∧
        ext <+: args.map (Option.map as_numpy_dtype) := by
  intro args
  induction args with
  | nil =>
    rintro seen ⟨d1, _, h1, _, _⟩
    exact absurd h1 (List.not_mem_nil _)
  | cons a rest ih =>
    rintro seen ⟨d1, d2, h1, h2, hne⟩
    cases a with
    | none =>
      have h1' : some d1 ∈ rest := by
        rcases List.mem_cons.mp h1 with hh | hh
        · exact absurd hh (by simp)
        · exact hh
      have h2' : some d2 ∈ rest := by
        rcases List.mem_cons.mp h2 with hh | hh
        · exact absurd hh (by simp)
        · exact hh
      obtain ⟨e1, e2, ext, heq, hne2, hm1, hm2, hpre⟩ :=
        ih (seen ++ [none]) ⟨d1, d2, h1', h2', hne⟩
      refine ⟨e1, e2, none :: ext, ?_, hne2, by simp [hm1], by simp [hm2], ?_⟩
      · simpa [commonDtypeLoop, List.append_assoc] using heq
      · obtain ⟨tl, htl⟩ := hpre
        exact ⟨tl, by simp [htl]⟩
    | some av =>
      have hw : ∃ d : DType, some d ∈ rest ∧
          as_numpy_dtype d ≠ as_numpy_dtype av := by
        by_cases hc1 : as_numpy_dtype d1 = as_numpy_dtype av
        · have hc2 : as_numpy_dtype d2 ≠ as_numpy_dtype av :=
            fun h => hne (hc1.trans h.symm)
          have hd2' : some d2 ∈ rest := by
            rcases List.mem_cons.mp h2 with hh | hh
            · obtain rfl : d2 = av := Option.some.inj hh
              exact absurd rfl hc2
            · exact hh
          exact ⟨d2, hd2', hc2⟩
        · have hd1' : some d1 ∈ rest := by
            rcases List.mem_cons.mp h1 with hh | hh
            · obtain rfl : d1 = av := Option.some.inj hh
              exact absurd rfl hc1
            · exact hh
          exact ⟨d1, hd1', hc1⟩
      obtain ⟨d2', ext, heq, hne2, hmem, hpre⟩ :=
        commonDtypeLoop_strict_conflict (as_numpy_dtype av) rest
          (seen ++ [some (as_numpy_dtype av)]) (by simp) hw
      refine ⟨as_numpy_dtype av, d2', some (as_numpy_dtype av) :: ext, ?_,
        hne2, by simp, by simp [hmem], ?_⟩
      · simpa [commonDtypeLoop, List.append_assoc] using heq
      · obtain ⟨tl, htl⟩ := hpre
        exact ⟨tl, by simp [htl]⟩

/-- C1: with strict checking (skip flag off), `common_dtype` on a
collection containing two values whose descriptors are not base-equal
raises the incompatible-types error for every hint; the error payload
names the two conflicting descriptors (which are distinct and both
listed among the descriptors seen) and carries every descriptor seen
so far in encounter order — a prefix of the flattened input
collection. -/
theorem common_dtype_strict_raises_incompatible
    (args : List (Option DType)) (hint : Option DType) (v1 v2 : DType)
    (h1 : some v1 ∈ args) (h2 : some v2 ∈ args)
    (hne : base_equal v1 v2 = false) :
    ∃ e1 e2 seen,
      common_dtype args hint false = .error (.incompatibleTypes e1 e2 seen) ∧
      e1 ≠ e2 ∧ some e1 ∈ seen ∧ some e2 ∈ seen ∧
      seen <+: args.map (Option.map as_numpy_dtype) := by
  obtain ⟨e1, e2, ext, heq, hne2, hm1, hm2, hpre⟩ :=
    commonDtypeLoop_strict_two args []
      ⟨v1, v2, h1, h2, asNumpy_ne_of_not_base_equal hne⟩
  refine ⟨e1, e2, ext, ?_, hne2, hm1, hm2, hpre⟩
  unfold common_dtype
  rw [heq]
  simp [Except.map]

/-- Witness for C1 at a float32 value followed by a float64 value. -/
theorem common_dtype_strict_raises_incompatible_witness :
    ∃ e1 e2 seen,
      common_dtype [some (toTf .float32), some (toTf .float64)] none false
        = .error (.incompatibleTypes e1 e2 seen) ∧
      e1 ≠ e2 ∧ some e1 ∈ seen ∧ some e2 ∈ seen ∧
      seen <+: List.map (Option.map as_numpy_dtype)
        [some (toTf .float32), some (toTf .float64)] :=
  common_dtype_strict_raises_incompatible
    [some (toTf .float32), some (toTf .float64)] none
    (toTf .float32) (toTf .float64) (by simp) (by simp) rfl

end dtype_util
